import Mathlib

/-!
# Event router of the bot front-end: `Handler.Run` (src/handler/handler.go)

A shallow embedding of the router loop of `handler.go`, lines 105-142.

* Pointers of the Go program are `Option` values; dereferencing a nil pointer
  is the fault `Fault.nilDeref` (a Go run-time panic).
* `select` over `ctx.Done()` and `h.ch` is a step function that takes the case
  picked by the Go run time as an argument; a case that is not ready cannot
  be picked (the step is `none`).
* `ants.Submit(task)` hands the closure to the worker pool and the router goes
  on with the loop. `route` is what the router goroutine does with an update
  (lines 112 and 131) and `Task.run` is the body of the submitted closure
  (lines 114-129 and 133-137). `Run_body` is the fate of one update alone: its
  classification, and the body of its task run at time `now` in the world `w`
  the task finds.
* In the loop (`Run_step`, `Run`) a submitted closure waits in the pool. The
  schedule decides when a worker makes its admission attempt (`Worker_allow`,
  lines 114-116 and 133-135, at a time of its own) and when it goes through
  the rest of the body (`Worker_finish`, lines 117-129 and 136-137), in any
  order and interleaved with the router and with the other closures.
* The handlers `HandleCmd`, `HandleMsg`, `HandleCallback` live in other files;
  an invocation is recorded in the effect trace, and what a handler does to
  the shared state afterwards is not part of `Run`. Log lines are left out.
* `ants.Submit` is taken to accept every task, and a fault inside a task
  stays inside the pool.
* Time is a natural number of nanoseconds.
-/

namespace Handler

/-! ## Data model -/

/-- Go run-time faults the router can raise. -/
inductive Fault where
  | nilDeref
  deriving DecidableEq, Repr

/-- Modelled from the spec: `tgbotapi.User`, of which the router reads `ID`
(the actor identity). -/
structure User where
  ID : Int
  deriving DecidableEq, Repr

/-- Modelled from the spec: `tgbotapi.Chat`, of which the router reads `ID`
(the conversation identity). -/
structure Chat where
  ID : Int
  deriving DecidableEq, Repr

/-- Modelled from the spec: `tgbotapi.Message`. `From` and `Chat` are pointers
in the library; `IsCommand` is the discriminator between a command and free
text that the method `IsCommand()` returns. -/
structure Message where
  From : Option User
  Chat : Option Chat
  IsCommand : Bool
  Text : String
  deriving DecidableEq, Repr

/-- Modelled from the spec: `tgbotapi.CallbackQuery`, a button press. `From`
and `Message` are pointers in the library. -/
structure CallbackQuery where
  From : Option User
  Message : Option Message
  Data : String
  deriving DecidableEq, Repr

/-- Modelled from the spec: `tgbotapi.Update`, one element of `h.ch`. Both
payloads are pointers; the router tests them against nil. -/
structure Update where
  Message : Option Message
  CallbackQuery : Option CallbackQuery
  deriving DecidableEq, Repr

/-! ## Rate limiter registry (`utils.NewRateLimiter`) -/

/-- Number of nanoseconds in a second; also the number of token units
(billionths of a token) in one token. -/
def nanos : Nat := 1000000000

/-- Modelled from the spec: the token bucket of one actor (the package `utils`
is not among the sources). `limit` is the refill rate in tokens per second,
`burst` the capacity in tokens, `tokens` the content in billionths of a token,
`last` the time of the last admission attempt in nanoseconds. -/
structure Limiter where
  limit : Nat
  burst : Nat
  tokens : Nat
  last : Nat
  deriving DecidableEq, Repr

/-- Modelled from the spec: the rate limiter registry, "maps an actor identity
to an independent token-bucket limiter; lazily creates limiters on first use". -/
structure RateLimiter where
  burst : Nat
  limit : Nat
  limiters : Int → Option Limiter

/-- Modelled from the spec: `utils.NewRateLimiter(burst, limit)`, an empty
registry whose limiters have capacity `burst` and refill `limit` tokens per
second ("capacity 3, refill 1 token/second" for `NewRateLimiter(3, 1)`). -/
def NewRateLimiter (burst limit : Nat) : RateLimiter :=
  { burst := burst, limit := limit, limiters := fun _ => none }

/-- Modelled from the spec: `GetLimiter(id)`, the limiter of actor `id`,
created full on first use. -/
def RateLimiter.GetLimiter (rl : RateLimiter) (id : Int) : Limiter :=
  match rl.limiters id with
  | some l => l
  | none => { limit := rl.limit, burst := rl.burst, tokens := rl.burst * nanos, last := 0 }

/-- Modelled from the spec: the content of the bucket at time `now`, in
billionths of a token: what it held at the last attempt plus `limit` tokens
per second elapsed since, up to the capacity `burst`. -/
def Limiter.refilled (l : Limiter) (now : Nat) : Nat :=
  min (l.burst * nanos) (l.tokens + (now - l.last) * l.limit)

/-- Modelled from the spec: `Allow()` at time `now`: the bucket is refilled for
the time elapsed since the last attempt, up to its capacity; "every call
attempts to consume one token; returns whether a token was available". -/
def Limiter.Allow (l : Limiter) (now : Nat) : Bool × Limiter :=
  if nanos ≤ l.refilled now then
    (true, { l with tokens := l.refilled now - nanos, last := max l.last now })
  else
    (false, { l with tokens := l.refilled now, last := max l.last now })

/-- Modelled from the spec: `limiter.GetLimiter(id).Allow()` (lines 114 and
133) on a registry, the limiter being shared by reference: the
decision, and the registry holding the limiter of `id` after the attempt. -/
def RateLimiter.allowFor (rl : RateLimiter) (id : Int) (now : Nat) : Bool × RateLimiter :=
  let r := (rl.GetLimiter id).Allow now
  (r.1, { rl with limiters := fun k => if k = id then some r.2 else rl.limiters k })

/-! ## Correlation registry (`FindMsgCbk`, `MsgChan`) -/

/-- Modelled from the spec: a correlation handle, "a single-slot delivery
channel sized 1". `slot` is the content of the channel `MsgChan()`. -/
structure MsgCbk where
  slot : Option Message
  deriving DecidableEq, Repr

/-- The state shared by the router and the tasks: the one limiter registry
created on line 106 and the correlation registry of the bot, keyed by
(conversation, actor). -/
structure World where
  limiter : RateLimiter
  cbks : Int → Int → Option MsgCbk

/-- Modelled from the spec: `h.bot.FindMsgCbk(chatID, userID)`, the handle
registered for the pair, if any. -/
def World.FindMsgCbk (w : World) (chatID userID : Int) : Option MsgCbk :=
  w.cbks chatID userID

/-- The registry with the handle of `(chatID, userID)` replaced by `h`. -/
def World.setCbk (w : World) (chatID userID : Int) (h : MsgCbk) : World :=
  { w with cbks := fun c a => if c = chatID ∧ a = userID then some h else w.cbks c a }

/-! ## Effects -/

/-- What a task does to the outside: a handler invocation, or a successful
send of the message into the channel of the handle of `(chatID, userID)`. -/
inductive Effect where
  | HandleCmd (m : Message)
  | HandleMsg (m : Message)
  | HandleCallback (q : CallbackQuery)
  | MsgChanSend (chatID userID : Int) (m : Message)
  deriving DecidableEq, Repr

/-! ## The router -/

/-- The closure handed to `ants.Submit`: the message task of lines 113-130 or
the callback task of lines 132-138, with the payload it captured. -/
inductive Task where
  | message (m : Message)
  | callback (q : CallbackQuery)
  deriving DecidableEq, Repr

/-- Line 131: the `else if` of the classification, reached when the update
is not a message of a positive conversation. -/
def routeCallback (update : Update) : Except Fault (Option Task) :=
  match update.CallbackQuery with
  | none => .ok none
  | some q =>
    match q.Message with
    | none => .error .nilDeref
    | some qm =>
      match qm.Chat with
      | none => .error .nilDeref
      | some chat => if chat.ID > 0 then .ok (some (.callback q)) else .ok none

/-- Lines 112 and 131: the classification done by the router goroutine.
`ok none` is an update that is ignored, `ok (some t)` a submitted task. -/
def route (update : Update) : Except Fault (Option Task) :=
  match update.Message with
  | none => routeCallback update
  | some m =>
    match m.Chat with
    | none => .error .nilDeref
    | some chat => if chat.ID > 0 then .ok (some (.message m)) else routeCallback update

/-- What a task leaves behind: the shared state, the effect trace, and the
fault that ended it, if any. A fault inside a task stays inside the worker
pool ("fault containment per task"); the state changes made before it remain. -/
structure TaskResult where
  world : World
  effects : List Effect
  fault : Option Fault

/-- Lines 114-129: the body of the message task, run at time `now`. -/
def runMessage (m : Message) (w : World) (now : Nat) : TaskResult :=
  match m.From with
  | none => { world := w, effects := [], fault := some .nilDeref }
  | some sender =>
    let r := w.limiter.allowFor sender.ID now
    let w1 : World := { w with limiter := r.2 }
    if !r.1 then { world := w1, effects := [], fault := none }
    else if m.IsCommand then { world := w1, effects := [.HandleCmd m], fault := none }
    else
      match m.Chat with
      | none => { world := w1, effects := [], fault := some .nilDeref }
      | some chat =>
        match w1.FindMsgCbk chat.ID sender.ID with
        | some msgChan =>
          match msgChan.slot with
          | none =>
            { world := w1.setCbk chat.ID sender.ID { slot := some m },
              effects := [.MsgChanSend chat.ID sender.ID m], fault := none }
          | some _ => { world := w1, effects := [], fault := none }
        | none => { world := w1, effects := [.HandleMsg m], fault := none }

/-- Lines 133-137: the body of the callback task, run at time `now`. -/
def runCallback (q : CallbackQuery) (w : World) (now : Nat) : TaskResult :=
  match q.From with
  | none => { world := w, effects := [], fault := some .nilDeref }
  | some sender =>
    let r := w.limiter.allowFor sender.ID now
    let w1 : World := { w with limiter := r.2 }
    if !r.1 then { world := w1, effects := [], fault := none }
    else { world := w1, effects := [.HandleCallback q], fault := none }

/-- The body of a submitted task. -/
def Task.run : Task → World → Nat → TaskResult
  | .message m => runMessage m
  | .callback q => runCallback q

/-- The sender a task reads the actor identity from: `update.Message.From`
(line 114) or `update.CallbackQuery.From` (line 133). -/
def Task.sender : Task → Option User
  | .message m => m.From
  | .callback q => q.From

/-- What one pass through the `case update := <-h.ch` branch leaves behind:
the task submitted to the pool, if any, the shared state, the effect trace,
and the fault raised inside the task, if any. -/
structure Outcome where
  submitted : Option Task
  world : World
  effects : List Effect
  fault : Option Fault

/-- Lines 112-139: the router classifies the update and the submitted task, if
any, runs at time `now`. `error`: the router goroutine itself faults while it
classifies the update. -/
def Run_body (update : Update) (w : World) (now : Nat) : Except Fault Outcome :=
  match route update with
  | .error e => .error e
  | .ok none => .ok { submitted := none, world := w, effects := [], fault := none }
  | .ok (some t) =>
    let r := t.run w now
    .ok { submitted := some t, world := r.world, effects := r.effects, fault := r.fault }

/-! ## The loop, its `select`, and the worker pool -/

/-- The two cases of the `select` of lines 108-111. -/
inductive SelectCase where
  | ctxDone
  | recv
  deriving DecidableEq, Repr

/-- A closure in the worker pool. `allowed` is false while the closure has not
made its admission attempt yet, and true once `Allow()` has returned true
(the closure stands between line 116 and line 117, or 135 and 136). -/
structure Job where
  task : Task
  allowed : Bool
  deriving DecidableEq, Repr

/-- The state of `Run` and of the pool between two steps: whether `ctx.Done()`
is closed, the updates buffered in `h.ch` (oldest first), the closures
submitted and not finished, and the shared state. -/
structure RunState where
  cancelled : Bool
  ch : List Update
  pool : List Job
  world : World

/-- A case of the `select` can proceed. -/
def RunState.ready (s : RunState) : SelectCase → Bool
  | .ctxDone => s.cancelled
  | .recv => !s.ch.isEmpty

/-- Lines 113 and 132, `ants.Submit(func() { ... })`: the closure joins the
pool; nothing of it has run yet. -/
def Submit (task : Task) (s : RunState) : RunState :=
  { s with pool := s.pool ++ [{ task := task, allowed := false }] }

/-- The result of one iteration of the loop. -/
inductive Step where
  | returned
  | panicked (e : Fault)
  | received (update : Update) (next : RunState)

/-- One iteration of the `for` loop, lines 107-141, when the `select` picks the
case `pick`. `none`: the case cannot proceed, so `select` does not pick it. A
received update is classified and its closure, if any, submitted; the router
does not wait for it. -/
def Run_step (pick : SelectCase) (s : RunState) : Option Step :=
  match pick with
  | .ctxDone => if s.cancelled then some .returned else none
  | .recv =>
    match s.ch with
    | [] => none
    | update :: rest =>
      match route update with
      | .error e => some (.panicked e)
      | .ok none => some (.received update { s with ch := rest })
      | .ok (some task) => some (.received update (Submit task { s with ch := rest }))

/-- Lines 114-116 and 133-135, the first half of a closure: the sender is
read and its limiter asked at time `now`. The result is the decision and the
shared state after the attempt. -/
def Task.admission (t : Task) (w : World) (now : Nat) : Except Fault (Bool × World) :=
  match t.sender with
  | none => .error .nilDeref
  | some sender =>
    let r := w.limiter.allowFor sender.ID now
    .ok (r.1, { w with limiter := r.2 })

/-- Lines 117-129 and 136-137, the second half of a closure, reached when the
attempt was admitted. -/
def Task.dispatch : Task → World → TaskResult
  | .callback q, w => { world := w, effects := [.HandleCallback q], fault := none }
  | .message m, w =>
    if m.IsCommand then { world := w, effects := [.HandleCmd m], fault := none }
    else
      match m.Chat with
      | none => { world := w, effects := [], fault := some .nilDeref }
      | some chat =>
        match m.From with
        | none => { world := w, effects := [], fault := some .nilDeref }
        | some sender =>
          match w.FindMsgCbk chat.ID sender.ID with
          | some msgChan =>
            match msgChan.slot with
            | none =>
              { world := w.setCbk chat.ID sender.ID { slot := some m },
                effects := [.MsgChanSend chat.ID sender.ID m], fault := none }
            | some _ => { world := w, effects := [], fault := none }
          | none => { world := w, effects := [.HandleMsg m], fault := none }

/-- A worker makes the admission attempt of the closure at position `i` of the
pool, at time `now`. `none`: there is no such closure, or it is past its
attempt. A denied closure (and one that faults) leaves the pool with no
effect; an admitted one stays, marked `allowed`. The first component is the
closure that finished in this step, with its effects, if any did. -/
def Worker_allow (i now : Nat) (s : RunState) : Option (List (Task × List Effect) × RunState) :=
  match s.pool[i]? with
  | none => none
  | some job =>
    if job.allowed then none
    else
      match job.task.admission s.world now with
      | .error _ => some ([(job.task, [])], { s with pool := s.pool.eraseIdx i })
      | .ok (false, w1) =>
        some ([(job.task, [])], { s with pool := s.pool.eraseIdx i, world := w1 })
      | .ok (true, w1) =>
        some ([], { s with pool := s.pool.set i { job with allowed := true }, world := w1 })

/-- A worker takes the admitted closure at position `i` of the pool through
the rest of its body. `none`: there is no such closure, or it has not been
admitted. The closure leaves the pool; the first component is the closure with
its effects. -/
def Worker_finish (i : Nat) (s : RunState) : Option (List (Task × List Effect) × RunState) :=
  match s.pool[i]? with
  | none => none
  | some job =>
    if job.allowed then
      let r := job.task.dispatch s.world
      some ([(job.task, r.effects)], { s with pool := s.pool.eraseIdx i, world := r.world })
    else none

/-- What the scheduler can do next: let the router go through one iteration
of its loop, let a worker make the admission attempt of a closure at some
time, or let a worker finish an admitted closure. -/
inductive Action where
  | select (pick : SelectCase)
  | allow (i now : Nat)
  | finish (i : Nat)
  deriving DecidableEq, Repr

/-- How a run along a schedule ends: the schedule is used up and the loop is
still going, `Run` has returned, the router goroutine has panicked, or the
schedule asks for a step that cannot be taken. -/
inductive Status where
  | running
  | returned
  | panicked (e : Fault)
  | stuck
  deriving DecidableEq, Repr

/-- The result of a run: one trace entry per finished closure, in the order
in which they finished, each with its effects; the last state; the status. -/
structure RunResult where
  trace : List (Task × List Effect)
  final : RunState
  status : Status

/-- `Run` and the pool along a schedule. -/
def Run : List Action → RunState → RunResult
  | [], s => { trace := [], final := s, status := .running }
  | .select pick :: sched, s =>
    match Run_step pick s with
    | none => { trace := [], final := s, status := .stuck }
    | some .returned => { trace := [], final := s, status := .returned }
    | some (.panicked e) => { trace := [], final := s, status := .panicked e }
    | some (.received _ next) => Run sched next
  | .allow i now :: sched, s =>
    match Worker_allow i now s with
    | none => { trace := [], final := s, status := .stuck }
    | some (done, next) =>
      { trace := done ++ (Run sched next).trace, final := (Run sched next).final,
        status := (Run sched next).status }
  | .finish i :: sched, s =>
    match Worker_finish i s with
    | none => { trace := [], final := s, status := .stuck }
    | some (done, next) =>
      { trace := done ++ (Run sched next).trace, final := (Run sched next).final,
        status := (Run sched next).status }

/-- The state in which `Run` starts (line 106): a new limiter registry
`utils.NewRateLimiter(3, 1)`, the correlation registry of the bot, the context
and the channel as given, an empty pool. -/
def Run_init (cancelled : Bool) (ch : List Update) (cbks : Int → Int → Option MsgCbk) : RunState :=
  { cancelled := cancelled, ch := ch, pool := [],
    world := { limiter := NewRateLimiter 3 1, cbks := cbks } }

/-! ## Vocabulary of the statements -/

/-- The message has sender `id` and belongs to a positive conversation. -/
def Message.sentBy (m : Message) (id : Int) : Bool :=
  match m.From, m.Chat with
  | some sender, some chat => decide (sender.ID = id) && decide (0 < chat.ID)
  | _, _ => false

/-- The callback has sender `id` and its message belongs to a positive
conversation. -/
def CallbackQuery.sentBy (q : CallbackQuery) (id : Int) : Bool :=
  match q.From, q.Message with
  | some sender, some qm =>
    match qm.Chat with
    | some chat => decide (sender.ID = id) && decide (0 < chat.ID)
    | none => false
  | _, _ => false

/-- The update is an event of actor `id` in a positive conversation: a message,
or a callback and no message. -/
def Update.sentBy (u : Update) (id : Int) : Bool :=
  match u.Message, u.CallbackQuery with
  | some m, _ => m.sentBy id
  | none, some q => q.sentBy id
  | none, none => false

/-- The task is a closure of an event of actor `id`. -/
def Task.sentBy : Task → Int → Bool
  | .message m, id => m.sentBy id
  | .callback q, id => q.sentBy id

/-- A plain text message of actor 5 in conversation 7. -/
def msg75 : Message := { From := some ⟨5⟩, Chat := some ⟨7⟩, IsCommand := false, Text := "a cat" }

/-- A command message of actor 5 in conversation 7. -/
def cmd75 : Message := { From := some ⟨5⟩, Chat := some ⟨7⟩, IsCommand := true, Text := "/help" }

/-- A world with a new limiter registry and one handle, for conversation 7 and
actor 5, whose slot holds `slot`. -/
def world75 (slot : Option Message) : World :=
  { limiter := NewRateLimiter 3 1,
    cbks := fun c a => if c = 7 ∧ a = 5 then some { slot := slot } else none }

/-- An earlier message of actor 5 in conversation 7, not yet taken out of the
slot by the waiter. -/
def old75 : Message := { From := some ⟨5⟩, Chat := some ⟨7⟩, IsCommand := false, Text := "a dog" }

/-- A plain text message of actor 2 in conversation 3. -/
def msg32 : Message := { From := some ⟨2⟩, Chat := some ⟨3⟩, IsCommand := false, Text := "more" }

/-- A world with a new limiter registry and one handle, for conversation 3 and
actor 2, whose slot holds the message `old`. -/
def world32 (old : Message) : World :=
  { limiter := NewRateLimiter 3 1,
    cbks := fun c a => if c = 3 ∧ a = 2 then some { slot := some old } else none }

/-- A message of actor 5 in the group conversation -100. -/
def msgGroup : Message :=
  { From := some ⟨5⟩, Chat := some ⟨-100⟩, IsCommand := false, Text := "hello" }

/-- A button press of actor 5 under a message of conversation 7. -/
def press75 : CallbackQuery := { From := some ⟨5⟩, Message := some msg75, Data := "ok" }

/-- A button press of actor 5 that carries no message (the button was under a
message sent in inline mode). -/
def pressInline : CallbackQuery := { From := some ⟨5⟩, Message := none, Data := "ok" }

/-- A message of conversation 7 that has no sender. -/
def msgAnon : Message := { From := none, Chat := some ⟨7⟩, IsCommand := false, Text := "hello" }

/-- A limiter registry in which the bucket of actor 5 is empty at time 0. -/
def drained5 : RateLimiter :=
  { burst := 3, limit := 1,
    limiters := fun k => if k = 5 then some { limit := 1, burst := 3, tokens := 0, last := 0 } else none }

/-! ## Lemmas on the classification and the tasks -/

theorem route_message {u : Update} {m : Message} {chat : Chat}
    (hm : u.Message = some m) (hc : m.Chat = some chat) (hpos : 0 < chat.ID) :
    route u = .ok (some (.message m)) := by
  simp [route, hm, hc, hpos]

theorem route_callback {u : Update} {q : CallbackQuery} {qm : Message} {chat : Chat}
    (hm : u.Message = none) (hq : u.CallbackQuery = some q) (hqm : q.Message = some qm)
    (hc : qm.Chat = some chat) (hpos : 0 < chat.ID) :
    route u = .ok (some (.callback q)) := by
  simp [route, routeCallback, hm, hq, hqm, hc, hpos]

theorem run_denied (t : Task) {sender : User} (w : World) (now : Nat)
    (hs : t.sender = some sender) (hden : (w.limiter.allowFor sender.ID now).1 = false) :
    t.run w now
      = { world := { w with limiter := (w.limiter.allowFor sender.ID now).2 },
          effects := [], fault := none } := by
  cases t with
  | message m =>
    simp only [Task.sender] at hs
    simp [Task.run, runMessage, hs, hden]
  | callback q =>
    simp only [Task.sender] at hs
    simp [Task.run, runCallback, hs, hden]

theorem runMessage_command {m : Message} {sender : User} (w : World) (now : Nat)
    (hs : m.From = some sender) (hcmd : m.IsCommand = true)
    (hadm : (w.limiter.allowFor sender.ID now).1 = true) :
    runMessage m w now
      = { world := { w with limiter := (w.limiter.allowFor sender.ID now).2 },
          effects := [.HandleCmd m], fault := none } := by
  simp [runMessage, hs, hcmd, hadm]

theorem runMessage_plain {m : Message} {sender : User} {chat : Chat} (w : World) (now : Nat)
    (hs : m.From = some sender) (hc : m.Chat = some chat) (hcmd : m.IsCommand = false)
    (hadm : (w.limiter.allowFor sender.ID now).1 = true)
    (hnone : w.FindMsgCbk chat.ID sender.ID = none) :
    runMessage m w now
      = { world := { w with limiter := (w.limiter.allowFor sender.ID now).2 },
          effects := [.HandleMsg m], fault := none } := by
  simp only [World.FindMsgCbk] at hnone
  simp [runMessage, hs, hc, hcmd, hadm, World.FindMsgCbk, hnone]

theorem runMessage_deliver {m : Message} {sender : User} {chat : Chat} {h : MsgCbk}
    (w : World) (now : Nat)
    (hs : m.From = some sender) (hc : m.Chat = some chat) (hcmd : m.IsCommand = false)
    (hadm : (w.limiter.allowFor sender.ID now).1 = true)
    (hreg : w.FindMsgCbk chat.ID sender.ID = some h) (hslot : h.slot = none) :
    runMessage m w now
      = { world := World.setCbk { w with limiter := (w.limiter.allowFor sender.ID now).2 }
            chat.ID sender.ID { slot := some m },
          effects := [.MsgChanSend chat.ID sender.ID m], fault := none } := by
  simp only [World.FindMsgCbk] at hreg
  simp [runMessage, hs, hc, hcmd, hadm, World.FindMsgCbk, hreg, hslot]

theorem runMessage_full {m m0 : Message} {sender : User} {chat : Chat} {h : MsgCbk}
    (w : World) (now : Nat)
    (hs : m.From = some sender) (hc : m.Chat = some chat) (hcmd : m.IsCommand = false)
    (hadm : (w.limiter.allowFor sender.ID now).1 = true)
    (hreg : w.FindMsgCbk chat.ID sender.ID = some h) (hslot : h.slot = some m0) :
    runMessage m w now
      = { world := { w with limiter := (w.limiter.allowFor sender.ID now).2 },
          effects := [], fault := none } := by
  simp only [World.FindMsgCbk] at hreg
  simp [runMessage, hs, hc, hcmd, hadm, World.FindMsgCbk, hreg, hslot]

theorem runCallback_allowed {q : CallbackQuery} {sender : User} (w : World) (now : Nat)
    (hs : q.From = some sender) (hadm : (w.limiter.allowFor sender.ID now).1 = true) :
    runCallback q w now
      = { world := { w with limiter := (w.limiter.allowFor sender.ID now).2 },
          effects := [.HandleCallback q], fault := none } := by
  simp [runCallback, hs, hadm]

/-! ## Lemmas on the limiter and on sequences of updates -/

/-- The body of a closure (`Task.run`) is its admission attempt followed, when
admitted, by the rest of the body, both in the same world and at once. -/
theorem Task.run_eq_phases (t : Task) (w : World) (now : Nat) :
    t.run w now =
      match t.admission w now with
      | .error e => { world := w, effects := [], fault := some e }
      | .ok (false, w1) => { world := w1, effects := [], fault := none }
      | .ok (true, w1) => t.dispatch w1 := by
  cases t with
  | message m =>
    simp only [Task.run, runMessage, Task.admission, Task.sender, Task.dispatch]
    cases hf : m.From with
    | none => rfl
    | some sender =>
      simp only []
      cases (w.limiter.allowFor sender.ID now).1 with
      | false => rfl
      | true => simp only [Bool.not_true, Bool.false_eq_true, if_false]
  | callback q =>
    simp only [Task.run, runCallback, Task.admission, Task.sender, Task.dispatch]
    cases hf : q.From with
    | none => rfl
    | some sender =>
      simp only []
      cases (w.limiter.allowFor sender.ID now).1 <;> rfl

/-- C1 (as stated, refuted): the admitted command message `cmd75` of actor 5 in
conversation 7 arrives while a handle with an empty slot is registered for
(7, 5). `Run` invokes `HandleCmd` and delivers nothing: the slot stays empty. -/
theorem C1_command_beats_correlation_example :
    (world75 none).FindMsgCbk 7 5 = some { slot := none } ∧
    ((world75 none).limiter.allowFor 5 0).1 = true ∧
    ∃ o, Run_body ⟨some cmd75, none⟩ (world75 none) 0 = .ok o ∧
      o.effects = [.HandleCmd cmd75] ∧ o.world.FindMsgCbk 7 5 = some { slot := none } :=
  ⟨rfl, rfl, _, rfl, rfl, rfl⟩

/-- C1 (amended): for every admitted message with a positive conversation ID
that is a command, `Run` invokes `HandleCmd` on it exactly once and sends
nothing to a correlation handle, whatever is registered for its
(conversation, actor) pair: the command prefix wins over correlation. -/
theorem C1_command_wins (u : Update) (w : World) (now : Nat) (m : Message)
    (sender : User) (chat : Chat)
    (hm : u.Message = some m) (hs : m.From = some sender) (hc : m.Chat = some chat)
    (hpos : 0 < chat.ID) (hcmd : m.IsCommand = true)
    (hadm : (w.limiter.allowFor sender.ID now).1 = true) :
    Run_body u w now
      = .ok { submitted := some (.message m),
              world := { limiter := (w.limiter.allowFor sender.ID now).2, cbks := w.cbks },
              effects := [.HandleCmd m], fault := none } := by
  simp [Run_body, route_message hm hc hpos, Task.run, runMessage_command w now hs hcmd hadm]

/-- Witness of C1 (amended): the command `cmd75` with a handle registered for
(7, 5). -/
theorem C1_command_wins_witness :
    Run_body ⟨some cmd75, none⟩ (world75 none) 0
      = .ok { submitted := some (.message cmd75),
              world := { limiter := ((world75 none).limiter.allowFor 5 0).2,
                         cbks := (world75 none).cbks },
              effects := [.HandleCmd cmd75], fault := none } :=
  C1_command_wins ⟨some cmd75, none⟩ (world75 none) 0 cmd75 ⟨5⟩ ⟨7⟩ rfl rfl rfl
    (by decide) rfl rfl

/-- C2: for every event (message or callback) for which a task is submitted
and whose sender is denied by the limiter, the task does nothing but the
admission attempt: no handler is invoked, nothing is sent into a handle, and
the correlation registry is unchanged. -/
theorem C2_denied_event_dropped (u : Update) (w : World) (now : Nat) (t : Task)
    (sender : User)
    (hr : route u = .ok (some t)) (hs : t.sender = some sender)
    (hden : (w.limiter.allowFor sender.ID now).1 = false) :
    Run_body u w now
      = .ok { submitted := some t,
              world := { limiter := (w.limiter.allowFor sender.ID now).2, cbks := w.cbks },
              effects := [], fault := none } := by
  simp [Run_body, hr, run_denied t w now hs hden]

/-- Witness of C2: the plain message `msg75` when the bucket of actor 5 is
empty, with a handle registered for (7, 5). -/
theorem C2_denied_event_dropped_witness :
    Run_body ⟨some msg75, none⟩ { world75 none with limiter := drained5 } 0
      = .ok { submitted := some (.message msg75),
              world := { limiter := (drained5.allowFor 5 0).2, cbks := (world75 none).cbks },
              effects := [], fault := none } :=
  C2_denied_event_dropped ⟨some msg75, none⟩ { world75 none with limiter := drained5 } 0
    (.message msg75) ⟨5⟩ rfl rfl rfl

/-- C3: for every (conversation, actor) pair with a registered handle whose
slot is empty, an admitted non-command message of that actor in that
(positive) conversation is put in the slot of the handle, and the only effect
is that send: `HandleMsg` is not invoked. -/
theorem C3_waiter_receives (u : Update) (w : World) (now : Nat) (m : Message)
    (sender : User) (chat : Chat) (h : MsgCbk)
    (hm : u.Message = some m) (hs : m.From = some sender) (hc : m.Chat = some chat)
    (hpos : 0 < chat.ID) (hcmd : m.IsCommand = false)
    (hadm : (w.limiter.allowFor sender.ID now).1 = true)
    (hreg : w.FindMsgCbk chat.ID sender.ID = some h) (hslot : h.slot = none) :
    ∃ o, Run_body u w now = .ok o ∧
      o.world.FindMsgCbk chat.ID sender.ID = some { slot := some m } ∧
      o.effects = [.MsgChanSend chat.ID sender.ID m] ∧
      Effect.HandleMsg m ∉ o.effects ∧ o.fault = none := by
  refine ⟨{ submitted := some (.message m),
             world := World.setCbk { w with limiter := (w.limiter.allowFor sender.ID now).2 }
               chat.ID sender.ID { slot := some m },
             effects := [.MsgChanSend chat.ID sender.ID m], fault := none },
          ?_, ?_, rfl, ?_, rfl⟩
  · simp only [Run_body, route_message hm hc hpos, Task.run,
      runMessage_deliver w now hs hc hcmd hadm hreg hslot]
  · simp [World.FindMsgCbk, World.setCbk]
  · simp

/-- Witness of C3: conversation 7, actor 5. -/
theorem C3_waiter_receives_witness :
    ∃ o, Run_body ⟨some msg75, none⟩ (world75 none) 0 = .ok o ∧
      o.world.FindMsgCbk 7 5 = some { slot := some msg75 } ∧
      o.effects = [.MsgChanSend 7 5 msg75] ∧
      Effect.HandleMsg msg75 ∉ o.effects ∧ o.fault = none :=
  C3_waiter_receives ⟨some msg75, none⟩ (world75 none) 0 msg75 ⟨5⟩ ⟨7⟩ { slot := none }
    rfl rfl rfl (by decide) rfl rfl rfl rfl

/-- C5: an update whose payload is of a negative conversation (the message,
if it carries one, has `Chat.ID < 0`, and the message of the callback, if it
carries one, has `Chat.ID < 0`) is ignored: no task is submitted, the shared
state (limiter registry, correlation registry) is untouched and there is no
effect. -/
theorem C5_negative_conversation_ignored (u : Update) (w : World) (now : Nat)
    (hmsg : ∀ m, u.Message = some m → ∃ chat, m.Chat = some chat ∧ chat.ID < 0)
    (hcb : ∀ q, u.CallbackQuery = some q →
      ∃ qm chat, q.Message = some qm ∧ qm.Chat = some chat ∧ chat.ID < 0) :
    route u = .ok none ∧
    Run_body u w now = .ok { submitted := none, world := w, effects := [], fault := none } := by
  have hrc : routeCallback u = .ok none := by
    cases hq : u.CallbackQuery with
    | none => simp [routeCallback, hq]
    | some q =>
      obtain ⟨qm, chat, hqm, hc, hlt⟩ := hcb q hq
      have hn : ¬ 0 < chat.ID := by omega
      simp [routeCallback, hq, hqm, hc, hn]
  have hr : route u = .ok none := by
    cases hm : u.Message with
    | none => simp [route, hm, hrc]
    | some m =>
      obtain ⟨chat, hc, hlt⟩ := hmsg m hm
      have hn : ¬ 0 < chat.ID := by omega
      simp [route, hm, hc, hn, hrc]
  exact ⟨hr, by simp [Run_body, hr]⟩

/-- Witness of C5: a message of the group conversation -100, while a handle is
registered for (7, 5). -/
theorem C5_negative_conversation_ignored_witness :
    route ⟨some msgGroup, none⟩ = .ok none ∧
    Run_body ⟨some msgGroup, none⟩ (world75 none) 0
      = .ok { submitted := none, world := world75 none, effects := [], fault := none } :=
  C5_negative_conversation_ignored ⟨some msgGroup, none⟩ (world75 none) 0
    (fun _ h => Option.some.inj h ▸ ⟨⟨-100⟩, rfl, by decide⟩)
    (fun _ h => Option.noConfusion h)

/-- C6 (as stated, refuted): the admitted plain message `msg32` of actor 2 in
conversation 3 arrives while the slot of the handle of (3, 2) still holds
`old75`. It is not delivered (the slot keeps `old75`) and no handler is
invoked: the effect trace is empty. -/
theorem C6_undelivered_without_handler_example :
    ((world32 old75).limiter.allowFor 2 0).1 = true ∧
    ∃ o, Run_body ⟨some msg32, none⟩ (world32 old75) 0 = .ok o ∧
      o.world.FindMsgCbk 3 2 = some { slot := some old75 } ∧
      o.effects = [] ∧ o.fault = none :=
  ⟨rfl, _, rfl, rfl, rfl, rfl⟩

/-- C6 (amended): for every admitted event with a positive conversation ID
that is a command message, a non-command message with no handle registered
for its (conversation, actor) pair, or a callback event, `Run` invokes exactly
one handler exactly once, chosen by the kind of the event: `HandleCmd` for the
command, `HandleMsg` for the non-command message, `HandleCallback` for the
callback; the correlation registry is left as it was, so a callback event is
never sent to a handle, whatever is registered. -/
theorem C6_one_handler_by_kind (w : World) (now : Nat) (sender : User)
    (hadm : (w.limiter.allowFor sender.ID now).1 = true) :
    (∀ (u : Update) (m : Message) (chat : Chat),
        u.Message = some m → m.From = some sender → m.Chat = some chat → 0 < chat.ID →
        m.IsCommand = true →
        Run_body u w now
          = .ok { submitted := some (.message m),
                  world := { limiter := (w.limiter.allowFor sender.ID now).2, cbks := w.cbks },
                  effects := [.HandleCmd m], fault := none }) ∧
    (∀ (u : Update) (m : Message) (chat : Chat),
        u.Message = some m → m.From = some sender → m.Chat = some chat → 0 < chat.ID →
        m.IsCommand = false → w.FindMsgCbk chat.ID sender.ID = none →
        Run_body u w now
          = .ok { submitted := some (.message m),
                  world := { limiter := (w.limiter.allowFor sender.ID now).2, cbks := w.cbks },
                  effects := [.HandleMsg m], fault := none }) ∧
    (∀ (u : Update) (q : CallbackQuery) (qm : Message) (chat : Chat),
        u.Message = none → u.CallbackQuery = some q → q.From = some sender →
        q.Message = some qm → qm.Chat = some chat → 0 < chat.ID →
        Run_body u w now
          = .ok { submitted := some (.callback q),
                  world := { limiter := (w.limiter.allowFor sender.ID now).2, cbks := w.cbks },
                  effects := [.HandleCallback q], fault := none }) := by
  refine ⟨?_, ?_, ?_⟩
  · intro u m chat hm hs hc hpos hcmd
    simp [Run_body, route_message hm hc hpos, Task.run, runMessage_command w now hs hcmd hadm]
  · intro u m chat hm hs hc hpos hcmd hnone
    simp [Run_body, route_message hm hc hpos, Task.run,
      runMessage_plain w now hs hc hcmd hadm hnone]
  · intro u q qm chat hm hq hs hqm hc hpos
    simp [Run_body, route_callback hm hq hqm hc hpos, Task.run,
      runCallback_allowed w now hs hadm]

/-- Witness of C6 (amended): the button press `press75` of actor 5 in
conversation 7, while a handle with an empty slot is registered for (7, 5):
`HandleCallback` is invoked and the registry is unchanged. -/
theorem C6_one_handler_by_kind_witness :
    Run_body ⟨none, some press75⟩ (world75 none) 0
      = .ok { submitted := some (.callback press75),
              world := { limiter := ((world75 none).limiter.allowFor 5 0).2,
                         cbks := (world75 none).cbks },
              effects := [.HandleCallback press75], fault := none } :=
  (C6_one_handler_by_kind (world75 none) 0 ⟨5⟩ rfl).2.2 ⟨none, some press75⟩ press75 msg75 ⟨7⟩
    rfl rfl rfl rfl rfl (by decide)

/-- C9 (as stated, refuted): the admitted plain message `msg75` of actor 5 in
conversation 7 arrives while the slot of the handle of (7, 5) still holds
`old75`. `HandleMsg` is not invoked: the message is dropped. -/
theorem C9_full_slot_drops_example :
    (world75 (some old75)).FindMsgCbk 7 5 = some { slot := some old75 } ∧
    ((world75 (some old75)).limiter.allowFor 5 0).1 = true ∧
    ∃ o, Run_body ⟨some msg75, none⟩ (world75 (some old75)) 0 = .ok o ∧
      Effect.HandleMsg msg75 ∉ o.effects ∧ o.effects = [] :=
  ⟨rfl, rfl, _, rfl, by decide, rfl⟩

/-- C9 (amended): for every admitted non-command message whose
(conversation, actor) pair has a registered handle whose slot is already full,
the delivery is not made and the message is dropped: the slot keeps its
content, no handler is invoked (`HandleMsg` is not called), nothing faults. -/
theorem C9_full_slot_drops (u : Update) (w : World) (now : Nat) (m m0 : Message)
    (sender : User) (chat : Chat) (h : MsgCbk)
    (hm : u.Message = some m) (hs : m.From = some sender) (hc : m.Chat = some chat)
    (hpos : 0 < chat.ID) (hcmd : m.IsCommand = false)
    (hadm : (w.limiter.allowFor sender.ID now).1 = true)
    (hreg : w.FindMsgCbk chat.ID sender.ID = some h) (hslot : h.slot = some m0) :
    Run_body u w now
      = .ok { submitted := some (.message m),
              world := { limiter := (w.limiter.allowFor sender.ID now).2, cbks := w.cbks },
              effects := [], fault := none } := by
  simp [Run_body, route_message hm hc hpos, Task.run,
    runMessage_full w now hs hc hcmd hadm hreg hslot]

/-- Witness of C9 (amended): `msg75` while the slot of (7, 5) holds `old75`. -/
theorem C9_full_slot_drops_witness :
    Run_body ⟨some msg75, none⟩ (world75 (some old75)) 0
      = .ok { submitted := some (.message msg75),
              world := { limiter := ((world75 (some old75)).limiter.allowFor 5 0).2,
                         cbks := (world75 (some old75)).cbks },
              effects := [], fault := none } :=
  C9_full_slot_drops ⟨some msg75, none⟩ (world75 (some old75)) 0 msg75 old75 ⟨5⟩ ⟨7⟩
    { slot := some old75 } rfl rfl rfl (by decide) rfl rfl rfl rfl

/-- C10 (the code at the failing inputs): a callback event with no attached
message makes the router goroutine dereference nil on line 131, in every
state: the classification faults, and the loop ends in a panic instead of
going on to the next update. A message with no sender in a positive
conversation is not ignored either: a task is submitted for it, and the task
dereferences nil on line 114. -/
theorem C10_malformed_update_faults (w : World) (now : Nat) (cancelled : Bool)
    (rest : List Update) (pool : List Job) :
    route ⟨none, some pressInline⟩ = .error .nilDeref ∧
    Run_body ⟨none, some pressInline⟩ w now = .error .nilDeref ∧
    Run_step .recv
        { cancelled := cancelled, ch := ⟨none, some pressInline⟩ :: rest, pool := pool,
          world := w }
      = some (.panicked .nilDeref) ∧
    Run [.select .recv]
        { cancelled := cancelled, ch := ⟨none, some pressInline⟩ :: rest, pool := pool,
          world := w }
      = { trace := [],
          final := { cancelled := cancelled, ch := ⟨none, some pressInline⟩ :: rest,
                     pool := pool, world := w },
          status := .panicked .nilDeref } ∧
    Run_body ⟨some msgAnon, none⟩ w now
      = .ok { submitted := some (.message msgAnon), world := w, effects := [],
              fault := some .nilDeref } :=
  ⟨rfl, rfl, rfl, rfl, rfl⟩

/-- C8 (as stated, refuted): the context is cancelled and `msg75` is buffered
in the channel. The receive case of the `select` is ready, and the step that
picks it receives the update and submits its closure, which a worker then
takes to `HandleMsg`. -/
theorem C8_cancelled_still_receives_example :
    (Run_init true [⟨some msg75, none⟩] (fun _ _ => none)).cancelled = true ∧
    (Run_init true [⟨some msg75, none⟩] (fun _ _ => none)).ready .recv = true ∧
    (∃ next, Run_step .recv (Run_init true [⟨some msg75, none⟩] (fun _ _ => none))
        = some (.received ⟨some msg75, none⟩ next) ∧
      next.ch = [] ∧ next.pool = [{ task := .message msg75, allowed := false }]) ∧
    (Run [.select .recv, .allow 0 0, .finish 0]
        (Run_init true [⟨some msg75, none⟩] (fun _ _ => none))).trace
      = [(.message msg75, [.HandleMsg msg75])] :=
  ⟨rfl, rfl, ⟨_, rfl, rfl, rfl⟩, by decide⟩

/-- C8 (amended): in every state in which the context is cancelled, the return
case of the `select` is ready and the step that picks it returns without
receiving. When the channel holds no update the receive case cannot be
picked, so returning is the only step. When the channel holds updates the
receive case is ready too, and the step that picks it takes the oldest
buffered update: the router classifies it and submits its closure (or panics
while classifying it) instead of returning. -/
theorem C8_cancelled_step (s : RunState) (hc : s.cancelled = true) :
    (s.ready .ctxDone = true ∧ Run_step .ctxDone s = some .returned) ∧
    (s.ch = [] → s.ready .recv = false ∧ Run_step .recv s = none) ∧
    (∀ u rest, s.ch = u :: rest →
      s.ready .recv = true ∧
      Run_step .recv s
        = some (match route u with
          | .error e => .panicked e
          | .ok none => .received u { s with ch := rest }
          | .ok (some task) => .received u (Submit task { s with ch := rest }))) := by
  refine ⟨⟨by simp [RunState.ready, hc], by simp [Run_step, hc]⟩, ?_, ?_⟩
  · intro hch
    simp [RunState.ready, Run_step, hch]
  · intro u rest hch
    refine ⟨by simp [RunState.ready, hch], ?_⟩
    simp only [Run_step, hch]
    cases route u with
    | error e => rfl
    | ok ot =>
      cases ot with
      | none => rfl
      | some t => rfl

/-- Witness of C8 (amended): the context is cancelled and `msg75` is buffered;
the receive case is ready and the step that picks it receives `msg75` and
submits its closure. -/
theorem C8_cancelled_step_witness :
    (Run_init true [⟨some msg75, none⟩] (fun _ _ => none)).ready .recv = true ∧
    Run_step .recv (Run_init true [⟨some msg75, none⟩] (fun _ _ => none))
      = some (.received ⟨some msg75, none⟩
          (Submit (.message msg75) (Run_init true [] (fun _ _ => none)))) :=
  (C8_cancelled_step (Run_init true [⟨some msg75, none⟩] (fun _ _ => none)) rfl).2.2
    ⟨some msg75, none⟩ [] rfl

/-! ## The claims on the limiter -/

end Handler
